import Mathlib

/-!
Shallow embedding of the core logic of `src/selloverde3/sello_verde.py`
("Sello Verde"): scoring engine, tier classifier, site registry,
certification ledger and aggregation layer.

Python floats are modelled by `ℚ`.  Python `round(x, 1)` is modelled as
rounding `x` to the nearest tenth (Python rounds ties to even on binary
floats; no value appearing in the development below lies on a tie, so the
two conventions agree on everything proved here).
-/

namespace SelloVerde

/-- Python `round(x, 1)`: round to one decimal place. -/
def round1 (x : ℚ) : ℚ := ((round (x * 10) : ℤ) : ℚ) / 10

/-- Python `round(x, 2)`: round to two decimal places. -/
def round2 (x : ℚ) : ℚ := ((round (x * 100) : ℤ) : ℚ) / 100

/-- `MAP_LVL.get(s, d)` for the dict `MAP_LVL = {"low":1.0, "medium":0.6, "high":0.2}`
(line 72 of the source): a lookup that falls back to the default `d`. -/
def MAP_LVL (s : String) (d : ℚ) : ℚ :=
  if s = "low" then 1.0 else if s = "medium" then 0.6 else if s = "high" then 0.2 else d

/-- The seven scoring weights (`DEFAULT_WEIGHTS` keys, line 73). -/
structure Weights where
  waste : ℚ
  energy : ℚ
  water : ℚ
  recycle : ℚ
  carbon : ℚ
  oil : ℚ
  hygiene : ℚ
  deriving DecidableEq

/-- `DEFAULT_WEIGHTS = {"waste":0.20,"energy":0.15,"water":0.15,"recycle":0.15,
"carbon":0.10,"oil":0.10,"hygiene":0.10}` (line 73). -/
def DEFAULT_WEIGHTS : Weights :=
  { waste := 0.20, energy := 0.15, water := 0.15, recycle := 0.15,
    carbon := 0.10, oil := 0.10, hygiene := 0.10 }

/-- A Metric Record: the `rec` dict built by `empresa_view` (lines 307-327).
Every key a Python dict may lack is an `Option`; `rec.get("oil_delivered", False)`
collapses to a plain `Bool` with default `false`. -/
structure Rec where
  id : String := ""
  month : String := ""
  waste_level : Option String := none
  energy_kwh : Option ℚ := none
  energy_level : Option String := none
  water_liters : Option ℚ := none
  water_level : Option String := none
  recycle_percent : Option ℚ := none
  recycle_level : Option String := none
  carbon_kg : Option ℚ := none
  carton_kg : Option ℚ := none
  plastico_kg : Option ℚ := none
  organico_kg : Option ℚ := none
  oil_liters : Option ℚ := none
  oil_delivered : Bool := false
  hygiene_pct : Option ℚ := none
  temp_freezer : Option ℚ := none
  temp_fridge : Option ℚ := none
  temp_ok : Bool := true
  practices : List (String × Bool) := []
  evidence : Option String := none
  created_at : String := ""
  deriving DecidableEq

/-- Waste sub-score (line 79): `MAP_LVL.get(rec.get("waste_level","medium"), 0.6)`. -/
def subWaste (rec : Rec) : ℚ := MAP_LVL (rec.waste_level.getD "medium") 0.6

/-- Energy sub-score (lines 81-88): numeric kWh thresholds when present,
else the categorical level mapping. -/
def subEnergy (rec : Rec) : ℚ :=
  match rec.energy_kwh with
  | none => MAP_LVL (rec.energy_level.getD "medium") 0.6
  | some v => if v ≤ 500 then 1.0 else if v ≤ 1200 then 0.6 else 0.2

/-- Water sub-score (lines 90-96): numeric liters thresholds when present,
else the categorical level mapping. -/
def subWater (rec : Rec) : ℚ :=
  match rec.water_liters with
  | none => MAP_LVL (rec.water_level.getD "medium") 0.6
  | some v => if v ≤ 2000 then 1.0 else if v ≤ 5000 then 0.6 else 0.2

/-- Recycle sub-score (lines 98-104): numeric fraction thresholds when present,
else the categorical level mapping. -/
def subRecycle (rec : Rec) : ℚ :=
  match rec.recycle_percent with
  | none => MAP_LVL (rec.recycle_level.getD "medium") 0.6
  | some v => if v ≥ 0.6 then 1.0 else if v ≥ 0.3 then 0.6 else 0.2

/-- Carbon sub-score (lines 106-112): absent defaults to `0.6`; there is no
categorical variant for carbon. -/
def subCarbon (rec : Rec) : ℚ :=
  match rec.carbon_kg with
  | none => 0.6
  | some v => if v ≤ 500 then 1.0 else if v ≤ 1200 then 0.6 else 0.2

/-- Oil sub-score (line 114): binary on the delivered flag. -/
def subOil (rec : Rec) : ℚ := if rec.oil_delivered then 1.0 else 0.2

/-- Hygiene sub-score (lines 116-122): absent defaults to `0.6`; there is no
categorical variant for hygiene. -/
def subHygiene (rec : Rec) : ℚ :=
  match rec.hygiene_pct with
  | none => 0.6
  | some v => if v ≥ 0.9 then 1.0 else if v ≥ 0.7 then 0.6 else 0.2

/-- `compute_score_full(rec, weights=None)` (lines 75-126): the weighted sum of
the seven sub-scores, times 100, rounded to one decimal. -/
def compute_score_full (rec : Rec) (weights : Option Weights) : ℚ :=
  let ws := weights.getD DEFAULT_WEIGHTS
  round1 ((ws.waste * subWaste rec + ws.energy * subEnergy rec + ws.water * subWater rec +
           ws.recycle * subRecycle rec + ws.carbon * subCarbon rec + ws.oil * subOil rec +
           ws.hygiene * subHygiene rec) * 100)

/-- `level_from_score(s)` (lines 128-131).  "Oro"/"Plata"/"Bronce" are the
source's names for the Gold/Silver/Bronze tiers. -/
def level_from_score (s : ℚ) : String :=
  if s ≥ 76 then "Oro" else if s ≥ 41 then "Plata" else "Bronce"

/-- C2: the tier classifier is total on scores with inclusive lower boundaries:
`s ≥ 76` is Gold ("Oro"), `41 ≤ s < 76` is Silver ("Plata"), `s < 41` is Bronze
("Bronce"); in particular 76.0 is Gold, 75.9 Silver, 41.0 Silver, 40.9 Bronze. -/
theorem level_from_score_thresholds (s : ℚ) :
    (76 ≤ s → level_from_score s = "Oro") ∧
    (41 ≤ s → s < 76 → level_from_score s = "Plata") ∧
    (s < 41 → level_from_score s = "Bronce") ∧
    level_from_score 76 = "Oro" ∧ level_from_score (75.9 : ℚ) = "Plata" ∧
    level_from_score 41 = "Plata" ∧ level_from_score (40.9 : ℚ) = "Bronce" := by
  unfold level_from_score
  refine ⟨fun h => ?_, fun h1 h2 => ?_, fun h => ?_, ?_, ?_, ?_, ?_⟩
  · rw [if_pos h]
  · rw [if_neg (by linarith), if_pos h1]
  · rw [if_neg (by linarith), if_neg (by linarith)]
  · norm_num
  · norm_num
  · norm_num
  · norm_num

/-- Witness for C2: the three threshold implications discharged at the concrete
scores 80, 50 and 30. -/
theorem level_from_score_thresholds_witness :
    ((76 : ℚ) ≤ 80 ∧ level_from_score 80 = "Oro") ∧
    ((41 : ℚ) ≤ 50 ∧ (50 : ℚ) < 76 ∧ level_from_score 50 = "Plata") ∧
    ((30 : ℚ) < 41 ∧ level_from_score 30 = "Bronce") :=
  ⟨⟨by norm_num, (level_from_score_thresholds 80).1 (by norm_num)⟩,
   ⟨by norm_num, by norm_num, (level_from_score_thresholds 50).2.1 (by norm_num) (by norm_num)⟩,
   ⟨by norm_num, (level_from_score_thresholds 30).2.2.1 (by norm_num)⟩⟩

/-- A record whose four categorical inputs (waste, energy, water, recycling)
are all "low", with no numeric measurements and the oil delivered flag set. -/
def recAllLow : Rec :=
  { waste_level := some "low", energy_level := some "low", water_level := some "low",
    recycle_level := some "low", oil_delivered := true }

/-- C1 counterexample: on the all-"low", delivered record the default-weight
score is 87.0, not 95.0 as claimed (carbon and hygiene have no categorical
variant and default to sub-score 0.6, not 1.0); the tier is still Gold. -/
theorem all_low_delivered_score_counterexample :
    compute_score_full recAllLow none = 87 ∧ (87 : ℚ) ≠ 95 ∧
    level_from_score (compute_score_full recAllLow none) = "Oro" := by
  have h : compute_score_full recAllLow none = 87 := by
    norm_num [compute_score_full, subWaste, subEnergy, subWater, subRecycle, subCarbon,
      subOil, subHygiene, MAP_LVL, DEFAULT_WEIGHTS, recAllLow, round1, round_eq]
  refine ⟨h, by norm_num, ?_⟩
  rw [h]
  norm_num [level_from_score]

/-- C1 (amended): a record whose categorical inputs are "low" for every
category that has a categorical variant (waste, energy, water, recycling),
with no numeric measurements and the oil delivered flag true, scores 87.0
with default weights (carbon and hygiene default to 0.6) and is classified
Gold ("Oro"). -/
theorem all_low_delivered_scores_87_gold (rec : Rec)
    (h1 : rec.waste_level = some "low") (h2 : rec.energy_level = some "low")
    (h3 : rec.water_level = some "low") (h4 : rec.recycle_level = some "low")
    (h5 : rec.energy_kwh = none) (h6 : rec.water_liters = none)
    (h7 : rec.recycle_percent = none) (h8 : rec.carbon_kg = none)
    (h9 : rec.hygiene_pct = none) (h10 : rec.oil_delivered = true) :
    compute_score_full rec none = 87 ∧
    level_from_score (compute_score_full rec none) = "Oro" := by
  have hs : compute_score_full rec none = 87 := by
    norm_num [compute_score_full, subWaste, subEnergy, subWater, subRecycle, subCarbon,
      subOil, subHygiene, MAP_LVL, DEFAULT_WEIGHTS, h1, h2, h3, h4, h5, h6, h7, h8, h9, h10,
      round1, round_eq]
  refine ⟨hs, ?_⟩
  rw [hs]
  norm_num [level_from_score]

/-- Witness for C1: the amended theorem instantiated at the concrete record
`recAllLow`. -/
theorem all_low_delivered_scores_87_gold_witness :
    recAllLow.waste_level = some "low" ∧ recAllLow.energy_level = some "low" ∧
    recAllLow.water_level = some "low" ∧ recAllLow.recycle_level = some "low" ∧
    recAllLow.energy_kwh = none ∧ recAllLow.water_liters = none ∧
    recAllLow.recycle_percent = none ∧ recAllLow.carbon_kg = none ∧
    recAllLow.hygiene_pct = none ∧ recAllLow.oil_delivered = true ∧
    (compute_score_full recAllLow none = 87 ∧
     level_from_score (compute_score_full recAllLow none) = "Oro") :=
  ⟨rfl, rfl, rfl, rfl, rfl, rfl, rfl, rfl, rfl, rfl,
   all_low_delivered_scores_87_gold recAllLow rfl rfl rfl rfl rfl rfl rfl rfl rfl rfl⟩

/-- C3: when a numeric measurement is present for a category, the sub-score is
determined by thresholding that number and the categorical level is ignored
(changing it does not change the sub-score); in particular `energy_kwh = 500`
with `energy_level = "high"` yields energy sub-score 1.0. -/
theorem numeric_precedence_over_level (rec : Rec) (v : ℚ) (lvl : Option String) :
    (rec.energy_kwh = some v →
      subEnergy rec = (if v ≤ 500 then (1.0 : ℚ) else if v ≤ 1200 then 0.6 else 0.2) ∧
      subEnergy { rec with energy_level := lvl } = subEnergy rec) ∧
    (rec.water_liters = some v → subWater { rec with water_level := lvl } = subWater rec) ∧
    (rec.recycle_percent = some v →
      subRecycle { rec with recycle_level := lvl } = subRecycle rec) ∧
    subEnergy { rec with energy_kwh := some 500, energy_level := some "high" } = 1.0 := by
  refine ⟨fun h => ⟨?_, ?_⟩, fun h => ?_, fun h => ?_, ?_⟩
  · simp [subEnergy, h]
  · simp [subEnergy, h]
  · simp [subWater, h]
  · simp [subRecycle, h]
  · norm_num [subEnergy]

/-- A record carrying a numeric measurement and a contradictory "high"
categorical level for energy, water and recycling simultaneously. -/
def recNum : Rec :=
  { energy_kwh := some 500, energy_level := some "high",
    water_liters := some 1000, water_level := some "high",
    recycle_percent := some 0.5, recycle_level := some "high" }

/-- Witness for C3: the precedence theorem instantiated at `recNum`, whose
energy sub-score is 1.0 despite `energy_level = "high"`. -/
theorem numeric_precedence_over_level_witness :
    recNum.energy_kwh = some 500 ∧ recNum.water_liters = some 1000 ∧
    recNum.recycle_percent = some 0.5 ∧
    subEnergy recNum = 1.0 ∧
    subEnergy { recNum with energy_level := some "low" } = subEnergy recNum ∧
    subWater { recNum with water_level := some "low" } = subWater recNum ∧
    subRecycle { recNum with recycle_level := some "low" } = subRecycle recNum :=
  ⟨rfl, rfl, rfl,
   by
     have h := (numeric_precedence_over_level recNum 500 (some "low")).1 rfl
     rw [h.1]
     norm_num,
   ((numeric_precedence_over_level recNum 500 (some "low")).1 rfl).2,
   (numeric_precedence_over_level recNum 1000 (some "low")).2.1 rfl,
   (numeric_precedence_over_level recNum 0.5 (some "low")).2.2.1 rfl⟩

/-- C9: scoring is total over arbitrary level strings — any level other than
"low" or "high" (including an absent level) maps to sub-score 0.6, exactly as
"medium" does; totality (never raising) is inherent in the functions above. -/
theorem unknown_level_defaults_medium (rec : Rec) (s : String)
    (hlow : s ≠ "low") (hhigh : s ≠ "high") :
    MAP_LVL s 0.6 = 0.6 ∧ MAP_LVL "medium" 0.6 = 0.6 ∧
    (rec.waste_level = some s → subWaste rec = 0.6) ∧
    (rec.waste_level = none → subWaste rec = 0.6) ∧
    (rec.energy_kwh = none → rec.energy_level = some s → subEnergy rec = 0.6) ∧
    (rec.energy_kwh = none → rec.energy_level = none → subEnergy rec = 0.6) ∧
    (rec.water_liters = none → rec.water_level = some s → subWater rec = 0.6) ∧
    (rec.recycle_percent = none → rec.recycle_level = some s → subRecycle rec = 0.6) := by
  have hmap : MAP_LVL s 0.6 = 0.6 := by
    unfold MAP_LVL
    rw [if_neg hlow]
    by_cases h : s = "medium"
    · rw [if_pos h]
    · rw [if_neg h, if_neg hhigh]
  have hmed : MAP_LVL "medium" 0.6 = 0.6 := by
    unfold MAP_LVL
    rw [if_neg (by decide), if_pos rfl]
  refine ⟨hmap, hmed, fun h => ?_, fun h => ?_, fun h h2 => ?_, fun h h2 => ?_,
    fun h h2 => ?_, fun h h2 => ?_⟩
  · simp [subWaste, h, hmap]
  · simp [subWaste, h, hmed]
  · simp [subEnergy, h, h2, hmap]
  · simp [subEnergy, h, h2, hmed]
  · simp [subWater, h, h2, hmap]
  · simp [subRecycle, h, h2, hmap]

/-- A record whose categorical levels carry a string outside the mapping. -/
def recUnknownLvl : Rec :=
  { waste_level := some "desconocido", energy_level := some "desconocido",
    water_level := some "desconocido", recycle_level := some "desconocido" }

/-- Witness for C9: the default-to-medium theorem instantiated at the concrete
level string "desconocido". -/
theorem unknown_level_defaults_medium_witness :
    ("desconocido" ≠ "low" ∧ "desconocido" ≠ "high") ∧
    subWaste recUnknownLvl = 0.6 ∧ subEnergy recUnknownLvl = 0.6 ∧
    subWater recUnknownLvl = 0.6 ∧ subRecycle recUnknownLvl = 0.6 :=
  ⟨⟨by decide, by decide⟩,
   (unknown_level_defaults_medium recUnknownLvl "desconocido" (by decide) (by decide)).2.2.1 rfl,
   (unknown_level_defaults_medium recUnknownLvl "desconocido" (by decide)
     (by decide)).2.2.2.2.1 rfl rfl,
   (unknown_level_defaults_medium recUnknownLvl "desconocido" (by decide)
     (by decide)).2.2.2.2.2.2.1 rfl rfl,
   (unknown_level_defaults_medium recUnknownLvl "desconocido" (by decide)
     (by decide)).2.2.2.2.2.2.2 rfl rfl⟩

lemma MAP_LVL_low (d : ℚ) : MAP_LVL "low" d = 1.0 := by
  unfold MAP_LVL
  rw [if_pos rfl]

lemma MAP_LVL_medium (d : ℚ) : MAP_LVL "medium" d = 0.6 := by
  unfold MAP_LVL
  rw [if_neg (by decide), if_pos rfl]

lemma MAP_LVL_high (d : ℚ) : MAP_LVL "high" d = 0.2 := by
  unfold MAP_LVL
  rw [if_neg (by decide), if_neg (by decide), if_pos rfl]

lemma MAP_LVL_mem (s : String) :
    MAP_LVL s 0.6 = 1.0 ∨ MAP_LVL s 0.6 = 0.6 ∨ MAP_LVL s 0.6 = 0.2 := by
  unfold MAP_LVL
  split_ifs <;> simp

lemma sub_mem_bounds {v : ℚ} (h : v = 1.0 ∨ v = 0.6 ∨ v = 0.2) : 0.2 ≤ v ∧ v ≤ 1 := by
  rcases h with h | h | h <;> norm_num [h]

lemma subWaste_mem (rec : Rec) :
    subWaste rec = 1.0 ∨ subWaste rec = 0.6 ∨ subWaste rec = 0.2 :=
  MAP_LVL_mem _

lemma subEnergy_mem (rec : Rec) :
    subEnergy rec = 1.0 ∨ subEnergy rec = 0.6 ∨ subEnergy rec = 0.2 := by
  cases hk : rec.energy_kwh with
  | none => simp only [subEnergy, hk]; exact MAP_LVL_mem _
  | some v => simp only [subEnergy, hk]; split_ifs <;> simp

lemma subWater_mem (rec : Rec) :
    subWater rec = 1.0 ∨ subWater rec = 0.6 ∨ subWater rec = 0.2 := by
  cases hk : rec.water_liters with
  | none => simp only [subWater, hk]; exact MAP_LVL_mem _
  | some v => simp only [subWater, hk]; split_ifs <;> simp

lemma subRecycle_mem (rec : Rec) :
    subRecycle rec = 1.0 ∨ subRecycle rec = 0.6 ∨ subRecycle rec = 0.2 := by
  cases hk : rec.recycle_percent with
  | none => simp only [subRecycle, hk]; exact MAP_LVL_mem _
  | some v => simp only [subRecycle, hk]; split_ifs <;> simp

lemma subCarbon_mem (rec : Rec) :
    subCarbon rec = 1.0 ∨ subCarbon rec = 0.6 ∨ subCarbon rec = 0.2 := by
  cases hk : rec.carbon_kg with
  | none => simp [subCarbon, hk]
  | some v => simp only [subCarbon, hk]; split_ifs <;> simp

lemma subOil_mem (rec : Rec) :
    subOil rec = 1.0 ∨ subOil rec = 0.6 ∨ subOil rec = 0.2 := by
  cases hk : rec.oil_delivered <;> simp [subOil, hk]

lemma subHygiene_mem (rec : Rec) :
    subHygiene rec = 1.0 ∨ subHygiene rec = 0.6 ∨ subHygiene rec = 0.2 := by
  cases hk : rec.hygiene_pct with
  | none => simp [subHygiene, hk]
  | some v => simp only [subHygiene, hk]; split_ifs <;> simp

lemma round1_close (x : ℚ) : -(1/20) ≤ x - round1 x ∧ x - round1 x ≤ 1/20 := by
  have h := abs_sub_round (x * 10)
  rw [abs_le] at h
  unfold round1
  constructor <;> linarith [h.1, h.2]

/-- C7: for every record (arbitrary numeric values, arbitrary or absent
levels), the default-weight score lies in [0, 100].  The embedding is a pure
total function of the record, so determinism and absence of side effects hold
by construction. -/
theorem score_in_bounds (rec : Rec) :
    0 ≤ compute_score_full rec none ∧ compute_score_full rec none ≤ 100 := by
  obtain ⟨w1, w2⟩ := sub_mem_bounds (subWaste_mem rec)
  obtain ⟨e1, e2⟩ := sub_mem_bounds (subEnergy_mem rec)
  obtain ⟨a1, a2⟩ := sub_mem_bounds (subWater_mem rec)
  obtain ⟨r1, r2⟩ := sub_mem_bounds (subRecycle_mem rec)
  obtain ⟨c1, c2⟩ := sub_mem_bounds (subCarbon_mem rec)
  obtain ⟨o1, o2⟩ := sub_mem_bounds (subOil_mem rec)
  obtain ⟨h1, h2⟩ := sub_mem_bounds (subHygiene_mem rec)
  set S : ℚ := (0.20 * subWaste rec + 0.15 * subEnergy rec + 0.15 * subWater rec +
      0.15 * subRecycle rec + 0.10 * subCarbon rec + 0.10 * subOil rec +
      0.10 * subHygiene rec) * 100 with hSdef
  have h19 : 19 ≤ S := by rw [hSdef]; nlinarith
  have h95 : S ≤ 95 := by rw [hSdef]; nlinarith
  have hcs : compute_score_full rec none = round1 S := rfl
  obtain ⟨b1, b2⟩ := round1_close S
  rw [hcs]
  constructor <;> linarith

/-- The `temp_ok` flag computed from the two temperature readings in
`empresa_view` (lines 282-284): starts `True`, cleared when the freezer
reading leaves [-25, -15] or the refrigerator reading leaves [1, 6]. -/
def temp_ok (tf tr : ℚ) : Bool :=
  let t1 := if ¬(-25 ≤ tf ∧ tf ≤ -15) then false else true
  let t2 := if ¬(1 ≤ tr ∧ tr ≤ 6) then false else t1
  t2

/-- C8: `temp_ok` is true exactly when the freezer reading lies in [-25, -15]
and the refrigerator reading lies in [1, 6]. -/
theorem temp_ok_iff_ranges (tf tr : ℚ) :
    temp_ok tf tr = true ↔ ((-25 ≤ tf ∧ tf ≤ -15) ∧ (1 ≤ tr ∧ tr ≤ 6)) := by
  unfold temp_ok
  by_cases hf : (-25 ≤ tf ∧ tf ≤ -15) <;> by_cases hr : (1 ≤ tr ∧ tr ≤ 6) <;>
    simp [hf, hr]

/-- A site (`data["sedes"][key]`): display name, locality and the owned
ordered list of records (lines 42-47, 242). -/
structure Sede where
  nombre : String := ""
  municipio : String := ""
  registros : List Rec := []
  deriving DecidableEq

/-- The sites document `data["sedes"]`: a key-to-site mapping, modelled as an
association list (Python dicts preserve insertion order). -/
abbrev Sedes := List (String × Sede)

/-- Dictionary lookup `data["sedes"][k]`, as an `Option`. -/
def lookupSede (d : Sedes) (k : String) : Option Sede :=
  (d.find? (fun p => p.1 == k)).map (fun p => p.2)

/-- Errors surfaced by registry operations.  `notFoundError` models the
`KeyError` Python raises on `data["sedes"][sel]` for an unknown key — the
spec's `NotFoundError`. -/
inductive SvError where
  | notFoundError
  deriving DecidableEq

/-- Appending a record to a site (lines 242 and 328-329):
`sede = data["sedes"][sel]` followed by `sede["registros"].append(rec)`.
An unknown site key makes the lookup fail. -/
def appendRecord (d : Sedes) (k : String) (r : Rec) : Except SvError Sedes :=
  match lookupSede d k with
  | none => Except.error SvError.notFoundError
  | some _ =>
      Except.ok (d.map (fun p =>
        if p.1 == k then (p.1, { p.2 with registros := p.2.registros ++ [r] }) else p))

/-- Deleting a record by id (lines 350-352):
`sede["registros"] = [r for r in sede["registros"] if r["id"] != sel_id]`. -/
def deleteRecordData (d : Sedes) (k recId : String) : Sedes :=
  d.map (fun p =>
    if p.1 == k then
      (p.1, { p.2 with registros := p.2.registros.filter (fun r => r.id != recId) })
    else p)

/-- Toggling the oil delivered flag on a record (lines 345-347):
`rec_obj["oil_delivered"] = True`. -/
def setOilDelivered (d : Sedes) (k recId : String) : Sedes :=
  d.map (fun p =>
    if p.1 == k then
      (p.1, { p.2 with registros := p.2.registros.map (fun r =>
        if r.id == recId then { r with oil_delivered := true } else r) })
    else p)

/-- A Certification Entry: the `reg` dict appended to the ledger on issuance
(line 429). -/
structure CertEntry where
  id : String
  sede_id : String
  sede_nombre : String
  score : ℚ
  nivel : String
  fecha : String
  emitido_por : String
  deriving DecidableEq

/-- Issuing a certification (lines 413-431): score and tier are computed from
the record at call time and the frozen values are appended to the ledger. -/
def issueSello (certs : List CertEntry) (sel : String) (sede : Sede) (last : Rec)
    (newId fecha : String) : List CertEntry :=
  let score := compute_score_full last none
  let nivel := level_from_score score
  certs ++ [{ id := newId, sede_id := sel, sede_nombre := sede.nombre, score := score,
              nivel := nivel, fecha := fecha, emitido_por := "Inspector (PRO)" }]

/-- The two persisted documents: the sites/records document and the
certification ledger. -/
structure AppState where
  sedes : Sedes
  certs : List CertEntry
  deriving DecidableEq

/-- The issuance action of `estado_view`: pick the selected site's last
record, compute score and tier, append the frozen entry (lines 411-431).
Nothing happens when the site is unknown or has no records (line 411). -/
def issueAction (st : AppState) (sel newId fecha : String) : AppState :=
  match lookupSede st.sedes sel with
  | none => st
  | some sede =>
    match sede.registros.getLast? with
    | none => st
    | some last => { st with certs := issueSello st.certs sel sede last newId fecha }

/-- The oil toggle action of `empresa_view` (lines 345-348): mutates the
sites document only. -/
def markOilAction (st : AppState) (k recId : String) : AppState :=
  { st with sedes := setOilDelivered st.sedes k recId }

/-- C4: issuing freezes the score and tier computed at issuance time into the
new ledger entry, and a later mutation of the source record (toggling the oil
delivered flag of any record of any site) leaves the ledger unchanged. -/
theorem issue_freezes_score_tier (st : AppState) (sel newId fecha k recId : String)
    (sede : Sede) (last : Rec)
    (h1 : lookupSede st.sedes sel = some sede)
    (h2 : sede.registros.getLast? = some last) :
    (issueAction st sel newId fecha).certs =
      st.certs ++ [{ id := newId, sede_id := sel, sede_nombre := sede.nombre,
                     score := compute_score_full last none,
                     nivel := level_from_score (compute_score_full last none),
                     fecha := fecha, emitido_por := "Inspector (PRO)" }] ∧
    (markOilAction (issueAction st sel newId fecha) k recId).certs =
      (issueAction st sel newId fecha).certs := by
  constructor
  · simp [issueAction, h1, h2, issueSello]
  · rfl

/-- The record at the site used by the C4 witness: all categorical inputs
"low", oil not yet delivered (score 79.0, Gold). -/
def recOilPending : Rec :=
  { id := "r1", waste_level := some "low", energy_level := some "low",
    water_level := some "low", recycle_level := some "low", oil_delivered := false }

/-- The site holding `recOilPending`. -/
def sedeMira : Sede :=
  { nombre := "Domino's - Miraflores", municipio := "Miraflores",
    registros := [recOilPending] }

/-- Initial state for the C4 witness. -/
def stEx : AppState := { sedes := [("Domino_Miraflores", sedeMira)], certs := [] }

/-- Witness for C4: issuing at the concrete state `stEx` and then toggling the
oil flag of the very record that was certified leaves the ledger unchanged. -/
theorem issue_freezes_score_tier_witness :
    lookupSede stEx.sedes "Domino_Miraflores" = some sedeMira ∧
    sedeMira.registros.getLast? = some recOilPending ∧
    ((issueAction stEx "Domino_Miraflores" "c1" "01/01/2025").certs =
      stEx.certs ++ [{ id := "c1", sede_id := "Domino_Miraflores",
                       sede_nombre := sedeMira.nombre,
                       score := compute_score_full recOilPending none,
                       nivel := level_from_score (compute_score_full recOilPending none),
                       fecha := "01/01/2025", emitido_por := "Inspector (PRO)" }] ∧
     (markOilAction (issueAction stEx "Domino_Miraflores" "c1" "01/01/2025")
        "Domino_Miraflores" "r1").certs =
      (issueAction stEx "Domino_Miraflores" "c1" "01/01/2025").certs) :=
  ⟨rfl, rfl,
   issue_freezes_score_tier stEx "Domino_Miraflores" "c1" "01/01/2025"
     "Domino_Miraflores" "r1" sedeMira recOilPending rfl rfl⟩

/-- C6: appending a record for an unknown site key fails with the not-found
error (Python's `KeyError` on the dict lookup, the spec's `NotFoundError`),
while deleting by a record id that no record of the site carries is a no-op
that returns the registry unchanged and is not an error. -/
theorem append_unknown_errors_delete_noop (d : Sedes) (k recId : String) (r : Rec) :
    (lookupSede d k = none → appendRecord d k r = Except.error SvError.notFoundError) ∧
    ((∀ p ∈ d, ∀ rec ∈ p.2.registros, rec.id ≠ recId) → deleteRecordData d k recId = d) := by
  constructor
  · intro h
    unfold appendRecord
    rw [h]
  · intro h
    unfold deleteRecordData
    have hfix : ∀ p ∈ d,
        (if p.1 == k then
          (p.1, { p.2 with registros := p.2.registros.filter (fun r => r.id != recId) })
         else p) = p := by
      intro p hp
      by_cases hk : (p.1 == k) = true
      · rw [if_pos hk]
        have hfilter : p.2.registros.filter (fun r => r.id != recId) = p.2.registros := by
          apply List.filter_eq_self.mpr
          intro a ha
          exact bne_iff_ne.mpr (h p hp a ha)
        rw [hfilter]
      · rw [if_neg hk]
    calc d.map (fun p =>
          if p.1 == k then
            (p.1, { p.2 with registros := p.2.registros.filter (fun r => r.id != recId) })
          else p)
        = d.map id := List.map_congr_left hfix
      _ = d := List.map_id d

/-- Witness for C6: at the concrete registry `stEx.sedes`, appending for the
unknown key "Domino_Surco" errs and deleting the unknown record id "zzz" from
the known site is the identity. -/
theorem append_unknown_errors_delete_noop_witness :
    lookupSede stEx.sedes "Domino_Surco" = none ∧
    appendRecord stEx.sedes "Domino_Surco" recOilPending =
      Except.error SvError.notFoundError ∧
    ((∀ p ∈ stEx.sedes, ∀ rec ∈ p.2.registros, rec.id ≠ "zzz") ∧
     deleteRecordData stEx.sedes "Domino_Miraflores" "zzz" = stEx.sedes) :=
  ⟨rfl,
   (append_unknown_errors_delete_noop stEx.sedes "Domino_Surco" "zzz" recOilPending).1 rfl,
   by
     have hids : ∀ p ∈ stEx.sedes, ∀ rec ∈ p.2.registros, rec.id ≠ "zzz" := by
       intro p hp rec hrec
       simp only [stEx, sedeMira, recOilPending, List.mem_singleton] at hp
       subst hp
       simp only [List.mem_singleton] at hrec
       subst hrec
       decide
     exact ⟨hids,
       (append_unknown_errors_delete_noop stEx.sedes "Domino_Miraflores" "zzz"
         recOilPending).2 hids⟩⟩

/-- The flat list of scores of every record of every site, in site order
(lines 222-225): `for s in sedes: for r in s["registros"]: append(score(r))`. -/
def scoresAll : Sedes → List ℚ
  | [] => []
  | p :: rest => p.2.registros.map (fun r => compute_score_full r none) ++ scoresAll rest

/-- `round(sum(scores_all)/len(scores_all), 1) if scores_all else "-"`
(line 226), with the `"-"` placeholder modelled as `none`. -/
def avgOfScores (l : List ℚ) : Option ℚ :=
  if l = [] then none else some (round1 (l.sum / (l.length : ℚ)))

/-- The sidebar average score (lines 221-226). -/
def avg_score (d : Sedes) : Option ℚ := avgOfScores (scoresAll d)

/-- Modelled from the spec: the total of the per-record scores, summed per
site — the numerator of the "arithmetic mean of §4.1 applied to every record
across every site". -/
def specTotalScore : Sedes → ℚ
  | [] => 0
  | p :: rest =>
      (p.2.registros.map (fun r => compute_score_full r none)).sum + specTotalScore rest

/-- Modelled from the spec: the number of records across every site. -/
def specRecordCount : Sedes → ℕ
  | [] => 0
  | p :: rest => p.2.registros.length + specRecordCount rest

/-- Modelled from the spec: the arithmetic mean of the scoring function
applied to every record of every site. -/
def specMeanScore (d : Sedes) : ℚ := specTotalScore d / (specRecordCount d : ℚ)

lemma scoresAll_sum (d : Sedes) : (scoresAll d).sum = specTotalScore d := by
  induction d with
  | nil => rfl
  | cons p rest ih => simp [scoresAll, specTotalScore, ih]

lemma scoresAll_length (d : Sedes) : (scoresAll d).length = specRecordCount d := by
  induction d with
  | nil => rfl
  | cons p rest ih => simp [scoresAll, specRecordCount, ih]

lemma scoresAll_nil_iff (d : Sedes) : scoresAll d = [] ↔ specRecordCount d = 0 := by
  rw [← scoresAll_length d]
  exact List.length_eq_zero.symm

/-- Two all-"high" categorical records (score 27.0 each). -/
def rec27 : Rec :=
  { waste_level := some "high", energy_level := some "high",
    water_level := some "high", recycle_level := some "high" }

/-- An all-"low" record with excellent hygiene and delivered oil (score 91.0). -/
def rec91 : Rec :=
  { waste_level := some "low", energy_level := some "low", water_level := some "low",
    recycle_level := some "low", hygiene_pct := some 0.95, oil_delivered := true }

/-- A registry whose three records score 27, 27 and 91. -/
def cexSedes : Sedes :=
  [("A", { nombre := "A", municipio := "M", registros := [rec27, rec27] }),
   ("B", { nombre := "B", municipio := "M", registros := [rec91] })]

/-- C5 counterexample: on a registry with scores 27, 27 and 91 the code
returns 48.3 — the mean 145/3 rounded to one decimal — which is not equal to
the arithmetic mean itself, refuting the claim as stated. -/
theorem avg_score_rounding_counterexample :
    avg_score cexSedes = some (483/10) ∧ specMeanScore cexSedes = 145/3 ∧
    ((483 : ℚ)/10) ≠ 145/3 := by
  have h27 : compute_score_full rec27 none = 27 := by
    norm_num [compute_score_full, subWaste, subEnergy, subWater, subRecycle, subCarbon,
      subOil, subHygiene, MAP_LVL_high, DEFAULT_WEIGHTS, rec27, round1, round_eq]
  have h91 : compute_score_full rec91 none = 91 := by
    norm_num [compute_score_full, subWaste, subEnergy, subWater, subRecycle, subCarbon,
      subOil, subHygiene, MAP_LVL_low, DEFAULT_WEIGHTS, rec91, round1, round_eq]
  refine ⟨?_, ?_, by norm_num⟩
  · unfold avg_score
    have hl : scoresAll cexSedes = [27, 27, 91] := by
      simp [scoresAll, cexSedes, h27, h91]
    rw [hl]
    unfold avgOfScores
    rw [if_neg (List.cons_ne_nil _ _)]
    norm_num [round1, round_eq]
  · norm_num [specMeanScore, specTotalScore, specRecordCount, cexSedes, h27, h91]

/-- C5 (amended): `avg_score` equals the arithmetic mean of the scoring
function applied to every record of every site rounded to one decimal place,
and is `none` exactly when no records exist anywhere; applied to the score
list [60, 80] of the two-site scenario it yields 70.0. -/
theorem avg_score_rounded_mean (d : Sedes) :
    (avg_score d = if specRecordCount d = 0 then none
                   else some (round1 (specMeanScore d))) ∧
    avgOfScores [60, 80] = some 70 := by
  constructor
  · unfold avg_score avgOfScores specMeanScore
    by_cases h : specRecordCount d = 0
    · rw [if_pos ((scoresAll_nil_iff d).mpr h), if_pos h]
    · rw [if_neg (fun hc => h ((scoresAll_nil_iff d).mp hc)), if_neg h,
        scoresAll_sum, scoresAll_length]
  · unfold avgOfScores
    rw [if_neg (List.cons_ne_nil _ _)]
    norm_num [round1, round_eq]

/-- Raw form inputs of `empresa_view` (lines 248-284): everything the record
built at lines 307-327 is made from. -/
structure FormInputs where
  month : String := ""
  energy_kwh : ℚ := 800
  water_liters : ℚ := 2500
  waste_level : String := "medium"
  carton_kg : ℚ := 50
  plastico_kg : ℚ := 5
  organico_kg : ℚ := 20
  oil_liters : ℚ := 10
  c1 : Bool := true
  c2 : Bool := true
  c3 : Bool := true
  c4 : Bool := true
  c5 : Bool := true
  temp_freezer : ℚ := -18
  temp_fridge : ℚ := 4
  ev_path : Option String := none
  newId : String := ""
  created_at : String := ""
  deriving DecidableEq

/-- Python treats booleans as 0/1 in `sum([c1,c2,c3,c4,c5])`. -/
def boolToRat (b : Bool) : ℚ := if b then 1 else 0

/-- The Metric Record built by the reporting workflow (lines 262-264, 276,
282-288 and 307-327): recycle percent and hygiene are derived fractions,
`oil_delivered` starts false, and `carbon_kg` is the estimator
`round(0.475 * energy_kwh + 0.0, 1)` — carbon is never supplied directly. -/
def mkRecord (i : FormInputs) : Rec :=
  { id := i.newId, month := i.month,
    energy_kwh := some i.energy_kwh,
    water_liters := some i.water_liters,
    waste_level := some i.waste_level,
    carton_kg := some i.carton_kg,
    plastico_kg := some i.plastico_kg,
    organico_kg := some i.organico_kg,
    oil_liters := some i.oil_liters,
    oil_delivered := false,
    recycle_percent := some (round2 ((i.carton_kg + i.plastico_kg) /
      max 1 (i.carton_kg + i.plastico_kg + i.organico_kg + 10))),
    hygiene_pct := some (round2 ((boolToRat i.c1 + boolToRat i.c2 + boolToRat i.c3 +
      boolToRat i.c4 + boolToRat i.c5) / 5)),
    temp_freezer := some i.temp_freezer,
    temp_fridge := some i.temp_fridge,
    temp_ok := temp_ok i.temp_freezer i.temp_fridge,
    carbon_kg := some (round1 (0.475 * i.energy_kwh + 0)),
    practices := [("cajas_biodegradables", true)],
    evidence := i.ev_path,
    created_at := i.created_at }

/-- C10: every record created through the reporting workflow stores
`carbon_kg = round(0.475 * energy_kwh, 1)`; carbon is not an independent
input, so any two input forms with the same energy yield the same stored
carbon and the same carbon sub-score. -/
theorem carbon_derived_from_energy (i j : FormInputs) (h : i.energy_kwh = j.energy_kwh) :
    (mkRecord i).carbon_kg = some (round1 (0.475 * i.energy_kwh + 0)) ∧
    (mkRecord i).carbon_kg = (mkRecord j).carbon_kg ∧
    subCarbon (mkRecord i) = subCarbon (mkRecord j) := by
  refine ⟨rfl, ?_, ?_⟩
  · simp [mkRecord, h]
  · simp [subCarbon, mkRecord, h]

/-- Default form inputs (the widgets' initial values). -/
def formA : FormInputs := {}

/-- Same energy as `formA`, different waste level and oil volume. -/
def formB : FormInputs := { waste_level := "high", oil_liters := 30 }

/-- Witness for C10: the derivation theorem at the concrete forms `formA` and
`formB`, which share `energy_kwh = 800` (stored carbon 380.0 for both). -/
theorem carbon_derived_from_energy_witness :
    formA.energy_kwh = formB.energy_kwh ∧
    ((mkRecord formA).carbon_kg = some (round1 (0.475 * formA.energy_kwh + 0)) ∧
     (mkRecord formA).carbon_kg = (mkRecord formB).carbon_kg ∧
     subCarbon (mkRecord formA) = subCarbon (mkRecord formB)) :=
  ⟨rfl, carbon_derived_from_energy formA formB rfl⟩

end SelloVerde
